import Mathlib

/-!
Verification development for the `arm_gic` crate: a safe abstraction layer
over the ARM Generic Interrupt Controller (GIC), versions 2 and 3.

The crate's public surface consists of the types `IntId`, `TriggerMode`,
`GicV2` and `GicV3`.  The repository ships only generated documentation
artifacts (trait-implementation indices); the driver bodies themselves are
not present, so the operations below are modelled from the specification
document and each such definition says so in its doc comment.
-/

set_option maxRecDepth 4096

/-- Modelled from the spec: the error taxonomy of the driver
(InvalidIntId, UnsupportedOperationForCategory, CoreIndexOutOfRange). -/
inductive GicError where
  | InvalidIntId
  | UnsupportedOperationForCategory
  | CoreIndexOutOfRange
deriving DecidableEq

/-- Modelled from the spec: the interrupt-number categories of the GIC
identifier space (SGI, PPI, SPI, Special, and the v3 extended ranges). -/
inductive Category where
  | SGI
  | PPI
  | SPI
  | Special
  | ExtendedPpi
  | ExtendedSpi
deriving DecidableEq

/-- Modelled from the spec: a raw value is inside one of the defined
category ranges.  SGI 0-15, PPI 16-31, SPI 32-1019, Special 1020-1023,
Extended PPI 1056-1119, Extended SPI 4096-5119.  The ranges 0-1023 are
contiguous, so validity is v < 1024 or one of the two extended ranges. -/
def isValidRaw (v : Nat) : Bool :=
  decide (v < 1024) || (decide (1056 ≤ v) && decide (v < 1120))
    || (decide (4096 ≤ v) && decide (v < 5120))

/-- Modelled from the spec: `IntId` is a validated integer wrapper over the
interrupt-number space; a value is always within one of the valid
categories at construction time. -/
structure IntId where
  raw : Nat
  hvalid : isValidRaw raw = true

theorem IntId.ext_raw {a b : IntId} (h : a.raw = b.raw) : a = b := by
  cases a
  cases b
  cases h
  rfl

instance : DecidableEq IntId := fun a b =>
  if h : a.raw = b.raw then .isTrue (IntId.ext_raw h)
  else .isFalse (fun hh => h (congrArg IntId.raw hh))

instance : LT IntId := ⟨fun a b => a.raw < b.raw⟩

/-- Modelled from the spec: the category of an interrupt id, determined by
which numeric range the raw value lies in. -/
def IntId.category (id : IntId) : Category :=
  if id.raw < 16 then Category.SGI
  else if id.raw < 32 then Category.PPI
  else if id.raw < 1020 then Category.SPI
  else if id.raw < 1024 then Category.Special
  else if id.raw < 1120 then Category.ExtendedPpi
  else Category.ExtendedSpi

/-- Modelled from the spec: fallible construction of an `IntId` from a raw
numeric value; fails with a range error when the value does not correspond
to any defined category. -/
def IntId.tryFrom (v : Nat) : Except GicError IntId :=
  if h : isValidRaw v = true then Except.ok ⟨v, h⟩
  else Except.error GicError.InvalidIntId

/-- Modelled from the spec: the "no pending interrupt" sentinel, id 1023,
in the special range. -/
def spuriousId : IntId := ⟨1023, by decide⟩

/-- Claim C1: for every raw value inside one of the defined category ranges,
`IntId.tryFrom` succeeds and the result reports the category that range
defines; for every value outside all defined ranges, including the
1024-1055 gap and values at or beyond the controller's maximum of 5120,
it fails with `GicError.InvalidIntId`. -/
theorem intid_try_from_ranges (v : Nat) :
    (v ≤ 15 → ∃ id : IntId, IntId.tryFrom v = Except.ok id ∧ id.raw = v ∧
      id.category = Category.SGI) ∧
    (16 ≤ v ∧ v ≤ 31 → ∃ id : IntId, IntId.tryFrom v = Except.ok id ∧ id.raw = v ∧
      id.category = Category.PPI) ∧
    (32 ≤ v ∧ v ≤ 1019 → ∃ id : IntId, IntId.tryFrom v = Except.ok id ∧ id.raw = v ∧
      id.category = Category.SPI) ∧
    (1020 ≤ v ∧ v ≤ 1023 → ∃ id : IntId, IntId.tryFrom v = Except.ok id ∧ id.raw = v ∧
      id.category = Category.Special) ∧
    (1056 ≤ v ∧ v ≤ 1119 → ∃ id : IntId, IntId.tryFrom v = Except.ok id ∧ id.raw = v ∧
      id.category = Category.ExtendedPpi) ∧
    (4096 ≤ v ∧ v ≤ 5119 → ∃ id : IntId, IntId.tryFrom v = Except.ok id ∧ id.raw = v ∧
      id.category = Category.ExtendedSpi) ∧
    (1024 ≤ v ∧ v ≤ 1055 → IntId.tryFrom v = Except.error GicError.InvalidIntId) ∧
    (5120 ≤ v → IntId.tryFrom v = Except.error GicError.InvalidIntId) ∧
    (¬ (v < 1024 ∨ (1056 ≤ v ∧ v < 1120) ∨ (4096 ≤ v ∧ v < 5120)) →
      IntId.tryFrom v = Except.error GicError.InvalidIntId) := by
  have hval : ∀ h : isValidRaw v = true, IntId.tryFrom v = Except.ok ⟨v, h⟩ := by
    intro h
    simp [IntId.tryFrom, h]
  have hinv : isValidRaw v = false →
      IntId.tryFrom v = Except.error GicError.InvalidIntId := by
    intro h
    simp [IntId.tryFrom, h]
  refine ⟨?_, ?_, ?_, ?_, ?_, ?_, ?_, ?_, ?_⟩
  · intro hr
    have h : isValidRaw v = true := by simp [isValidRaw]; omega
    exact ⟨⟨v, h⟩, hval h, rfl, by simp [IntId.category]; omega⟩
  · intro hr
    have h : isValidRaw v = true := by simp [isValidRaw]; omega
    refine ⟨⟨v, h⟩, hval h, rfl, ?_⟩
    simp only [IntId.category]
    rw [if_neg (by omega), if_pos (by omega)]
  · intro hr
    have h : isValidRaw v = true := by simp [isValidRaw]; omega
    refine ⟨⟨v, h⟩, hval h, rfl, ?_⟩
    simp only [IntId.category]
    rw [if_neg (by omega), if_neg (by omega), if_pos (by omega)]
  · intro hr
    have h : isValidRaw v = true := by simp [isValidRaw]; omega
    refine ⟨⟨v, h⟩, hval h, rfl, ?_⟩
    simp only [IntId.category]
    rw [if_neg (by omega), if_neg (by omega), if_neg (by omega), if_pos (by omega)]
  · intro hr
    have h : isValidRaw v = true := by simp [isValidRaw]; omega
    refine ⟨⟨v, h⟩, hval h, rfl, ?_⟩
    simp only [IntId.category]
    rw [if_neg (by omega), if_neg (by omega), if_neg (by omega), if_neg (by omega),
      if_pos (by omega)]
  · intro hr
    have h : isValidRaw v = true := by simp [isValidRaw]; omega
    refine ⟨⟨v, h⟩, hval h, rfl, ?_⟩
    simp only [IntId.category]
    rw [if_neg (by omega), if_neg (by omega), if_neg (by omega), if_neg (by omega),
      if_neg (by omega)]
  · intro hr
    refine hinv ?_
    simp [isValidRaw]
    omega
  · intro hr
    refine hinv ?_
    simp [isValidRaw]
    omega
  · intro hr
    refine hinv ?_
    simp [isValidRaw]
    omega

/-- Witness for C1: concrete instances on both sides of the range check:
raw value 40 constructs as an SPI, and the gap value 1030 is rejected. -/
theorem intid_try_from_ranges_witness :
    (∃ id : IntId, IntId.tryFrom 40 = Except.ok id ∧ id.raw = 40 ∧
      id.category = Category.SPI) ∧
    IntId.tryFrom 1030 = Except.error GicError.InvalidIntId :=
  ⟨(intid_try_from_ranges 40).2.2.1 (by decide),
   (intid_try_from_ranges 1030).2.2.2.2.2.2.1 (by decide)⟩

/-- Modelled from the spec: the two-valued trigger-mode enumeration
(edge- vs level-sensitive). -/
inductive TriggerMode where
  | Edge
  | Level
deriving DecidableEq

/-- Modelled from the spec: the 2-bit config-register field encoding a
trigger mode; the mode bit is the upper bit of the slot (the other bit is
reserved). -/
def encodeTrigger : TriggerMode → Nat
  | TriggerMode.Edge => 2
  | TriggerMode.Level => 0

/-- Modelled from the spec: decoding the 2-bit config field back to a
trigger mode. -/
def decodeTrigger (v : Nat) : TriggerMode :=
  if Nat.testBit v 1 then TriggerMode.Edge else TriggerMode.Level

/-- Modelled from the spec: the effect on a 32-bit enable word of writing
the single bit `b` to the write-1-to-set ISENABLER register (no
read-modify-write; sibling bits are untouched). -/
def setBit32 (w b : Nat) : Nat := w ||| (1 <<< b)

/-- Modelled from the spec: the effect on a 32-bit enable word of writing
the single bit `b` to the write-1-to-clear ICENABLER register (no
read-modify-write; sibling bits are untouched). -/
def clearBit32 (w b : Nat) : Nat :=
  if Nat.testBit w b then w ^^^ (1 <<< b) else w

/-- Modelled from the spec: the observable distributor/CPU-interface state
of one controller, simulated at the granularity the registers expose:
enable state as 32-bit words (one bit per interrupt), priority and target
registers as one byte per interrupt, the trigger-config field as the 2-bit
slot per interrupt, plus the hardware-side pending and active interrupt
lists driving acknowledge/end-of-interrupt. -/
structure GicState where
  enable : Nat → Nat
  priority : Nat → Nat
  cfg : Nat → Nat
  targets : Nat → Nat
  pending : List IntId
  active : List IntId

/-- Modelled from the spec: the state of a freshly initialized controller:
all registers zero, nothing pending or active. -/
def GicState.init : GicState :=
  { enable := fun _ => 0
    priority := fun _ => 0
    cfg := fun _ => 0
    targets := fun _ => 0
    pending := []
    active := [] }

/-- Modelled from the spec: `enable_interrupt` sets the interrupt's bit in
the distributor enable-set register; the special range is rejected before
any register access. -/
def enable_interrupt (s : GicState) (id : IntId) :
    Except GicError Unit × GicState :=
  if id.category = Category.Special then
    (Except.error GicError.UnsupportedOperationForCategory, s)
  else
    (Except.ok (),
      { s with enable := fun w =>
          if w = id.raw / 32 then setBit32 (s.enable (id.raw / 32)) (id.raw % 32)
          else s.enable w })

/-- Modelled from the spec: `disable_interrupt` clears the interrupt's bit
via the distributor enable-clear register; the special range is rejected
before any register access. -/
def disable_interrupt (s : GicState) (id : IntId) :
    Except GicError Unit × GicState :=
  if id.category = Category.Special then
    (Except.error GicError.UnsupportedOperationForCategory, s)
  else
    (Except.ok (),
      { s with enable := fun w =>
          if w = id.raw / 32 then clearBit32 (s.enable (id.raw / 32)) (id.raw % 32)
          else s.enable w })

/-- Modelled from the spec: `set_priority` writes the 8-bit priority to the
per-interrupt priority byte; the special range is rejected before any
register access. -/
def set_priority (s : GicState) (id : IntId) (p : Nat) :
    Except GicError Unit × GicState :=
  if id.category = Category.Special then
    (Except.error GicError.UnsupportedOperationForCategory, s)
  else
    (Except.ok (),
      { s with priority := fun i => if i = id.raw then p % 256 else s.priority i })

/-- Modelled from the spec: reading the per-interrupt priority byte back
through the register access layer. -/
def read_priority (s : GicState) (id : IntId) : Nat := s.priority id.raw

/-- Modelled from the spec: `set_trigger_mode` writes the 2-bit config
field; valid only for (extended) SPI/PPI — SGIs are always edge-triggered,
so an SGI (and the special range) is rejected before any register
access. -/
def set_trigger_mode (s : GicState) (id : IntId) (m : TriggerMode) :
    Except GicError Unit × GicState :=
  match id.category with
  | Category.SGI => (Except.error GicError.UnsupportedOperationForCategory, s)
  | Category.Special => (Except.error GicError.UnsupportedOperationForCategory, s)
  | _ =>
    (Except.ok (),
      { s with cfg := fun i => if i = id.raw then encodeTrigger m else s.cfg i })

/-- Modelled from the spec: reading the 2-bit config field back through the
register access layer. -/
def read_trigger_mode (s : GicState) (id : IntId) : TriggerMode :=
  decodeTrigger (s.cfg id.raw)

/-- Modelled from the spec: `set_target_cpus` writes the CPU bitmask to the
per-interrupt distributor target byte; valid only for SPI — every other
category is rejected before any register access. -/
def set_target_cpus (s : GicState) (id : IntId) (mask : Nat) :
    Except GicError Unit × GicState :=
  if id.category = Category.SPI then
    (Except.ok (),
      { s with targets := fun i => if i = id.raw then mask % 256 else s.targets i })
  else (Except.error GicError.UnsupportedOperationForCategory, s)

/-- Modelled from the spec: a hardware source asserting an interrupt, which
makes it pending.  Only real sources (never the special range) can be
asserted by hardware. -/
def assert_interrupt (s : GicState) (id : IntId) : GicState :=
  if id.category = Category.Special then s
  else { s with pending := id :: s.pending }

/-- Modelled from the spec: `get_and_acknowledge_interrupt` reads the
interrupt-acknowledge register: it returns a pending id — moving it from
pending to active, which is the read that clears the pending state — or
the sentinel 1023 when nothing is pending.  It is a total function: it
never blocks. -/
def get_and_acknowledge_interrupt (s : GicState) : IntId × GicState :=
  match s.pending with
  | [] => (spuriousId, s)
  | x :: xs => (x, { s with pending := xs, active := x :: s.active })

/-- Modelled from the spec: `end_interrupt` writes the end-of-interrupt
register, dropping the interrupt from the active set and permitting
re-assertion and re-delivery. -/
def end_interrupt (s : GicState) (id : IntId) : GicState :=
  { s with active := s.active.erase id }

/-- Modelled from the spec: the per-core state of a v3 controller — a fixed
core count chosen at construction and one redistributor region per
core. -/
structure GicV3State where
  numCores : Nat
  redist : Nat → GicState

/-- Modelled from the spec: a v3 controller initialized for one core. -/
def GicV3State.init : GicV3State :=
  { numCores := 1, redist := fun _ => GicState.init }

/-- Modelled from the spec: a redistributor operation addressed by core
index — enabling a per-core-private interrupt through that core's
redistributor.  A core index at or beyond the configured count fails with
`CoreIndexOutOfRange` before any register access. -/
def redist_enable_interrupt (s : GicV3State) (core : Nat) (id : IntId) :
    Except GicError Unit × GicV3State :=
  if s.numCores ≤ core then (Except.error GicError.CoreIndexOutOfRange, s)
  else
    match enable_interrupt (s.redist core) id with
    | (Except.error e, _) => (Except.error e, s)
    | (Except.ok _, g) =>
      (Except.ok (),
        { s with redist := fun c => if c = core then g else s.redist c })

/-- Modelled from the spec: an SPI id used in the concrete scenarios
(id 40, as in the spec's mock scenario). -/
def spi40 : IntId := ⟨40, by decide⟩

/-- Modelled from the spec: an SGI id (id 0). -/
def sgi0 : IntId := ⟨0, by decide⟩

/-- Modelled from the spec: a PPI id (id 16). -/
def ppi16 : IntId := ⟨16, by decide⟩

/-- Claim C2: `get_and_acknowledge_interrupt` is a total function (it never
blocks) and: on an idle controller it returns the sentinel id 1023; after a
pending SPI is asserted it returns that SPI exactly once — the next call
returns the sentinel — and after `end_interrupt` for that id and a
re-assertion by the source it returns the id again. -/
theorem ack_semantics (s : GicState) (id : IntId)
    (hidle : s.pending = []) (hspi : id.category = Category.SPI) :
    (get_and_acknowledge_interrupt s).1 = spuriousId ∧
    (get_and_acknowledge_interrupt (assert_interrupt s id)).1 = id ∧
    (get_and_acknowledge_interrupt
      (get_and_acknowledge_interrupt (assert_interrupt s id)).2).1 = spuriousId ∧
    (get_and_acknowledge_interrupt (assert_interrupt
      (end_interrupt (get_and_acknowledge_interrupt
        (get_and_acknowledge_interrupt (assert_interrupt s id)).2).2 id) id)).1 = id := by
  have hns : ¬ id.category = Category.Special := by
    rw [hspi]
    intro h
    cases h
  simp [get_and_acknowledge_interrupt, assert_interrupt, end_interrupt, hidle, hns]

/-- Witness for C2: the acknowledge scenario run on the concrete initial
state with SPI 40. -/
theorem ack_semantics_witness :
    (get_and_acknowledge_interrupt GicState.init).1 = spuriousId ∧
    (get_and_acknowledge_interrupt (assert_interrupt GicState.init spi40)).1 = spi40 ∧
    (get_and_acknowledge_interrupt
      (get_and_acknowledge_interrupt (assert_interrupt GicState.init spi40)).2).1
        = spuriousId ∧
    (get_and_acknowledge_interrupt (assert_interrupt
      (end_interrupt (get_and_acknowledge_interrupt
        (get_and_acknowledge_interrupt (assert_interrupt GicState.init spi40)).2).2
          spi40) spi40)).1 = spi40 :=
  ack_semantics GicState.init spi40 rfl (by decide)

/-- Claim C3: `set_trigger_mode` succeeds for every PPI or SPI id and the
read-back of the config field yields the mode just written; for every SGI
id it fails with `UnsupportedOperationForCategory` (and leaves the state
untouched). -/
theorem trigger_mode_semantics (s : GicState) (id : IntId) (m : TriggerMode) :
    (id.category = Category.PPI ∨ id.category = Category.SPI →
      (set_trigger_mode s id m).1 = Except.ok () ∧
      read_trigger_mode (set_trigger_mode s id m).2 id = m) ∧
    (id.category = Category.SGI →
      set_trigger_mode s id m =
        (Except.error GicError.UnsupportedOperationForCategory, s)) := by
  have hdec : decodeTrigger (encodeTrigger m) = m := by
    cases m <;> decide
  constructor
  · intro hc
    rcases hc with hc | hc <;>
      simp [set_trigger_mode, read_trigger_mode, hc, hdec]
  · intro hc
    simp [set_trigger_mode, hc]

/-- Witness for C3: trigger-mode round trip on SPI 40 with mode Level, and
rejection on SGI 0. -/
theorem trigger_mode_semantics_witness :
    ((set_trigger_mode GicState.init spi40 TriggerMode.Level).1 = Except.ok () ∧
      read_trigger_mode (set_trigger_mode GicState.init spi40 TriggerMode.Level).2
        spi40 = TriggerMode.Level) ∧
    set_trigger_mode GicState.init sgi0 TriggerMode.Level =
      (Except.error GicError.UnsupportedOperationForCategory, GicState.init) :=
  ⟨(trigger_mode_semantics GicState.init spi40 TriggerMode.Level).1
      (Or.inr (by decide)),
   (trigger_mode_semantics GicState.init sgi0 TriggerMode.Level).2 (by decide)⟩

/-- Claim C4: every error any controller operation returns
(`UnsupportedOperationForCategory` from the category checks,
`CoreIndexOutOfRange` from the redistributor core-index check) is detected
before any register access, so the state after an erroring call is exactly
the state before it.  `InvalidIntId` is raised only by the pure
`IntId.tryFrom` constructor, which touches no controller state at all. -/
theorem error_paths_no_mutation (s : GicState) (v3 : GicV3State) (id : IntId)
    (core p mask : Nat) (m : TriggerMode) :
    (∀ e, (enable_interrupt s id).1 = Except.error e →
      (enable_interrupt s id).2 = s) ∧
    (∀ e, (disable_interrupt s id).1 = Except.error e →
      (disable_interrupt s id).2 = s) ∧
    (∀ e, (set_priority s id p).1 = Except.error e →
      (set_priority s id p).2 = s) ∧
    (∀ e, (set_trigger_mode s id m).1 = Except.error e →
      (set_trigger_mode s id m).2 = s) ∧
    (∀ e, (set_target_cpus s id mask).1 = Except.error e →
      (set_target_cpus s id mask).2 = s) ∧
    (∀ e, (redist_enable_interrupt v3 core id).1 = Except.error e →
      (redist_enable_interrupt v3 core id).2 = v3) := by
  refine ⟨?_, ?_, ?_, ?_, ?_, ?_⟩
  · intro e h
    by_cases hc : id.category = Category.Special
    · simp [enable_interrupt, hc]
    · exfalso
      simp [enable_interrupt, hc] at h
  · intro e h
    by_cases hc : id.category = Category.Special
    · simp [disable_interrupt, hc]
    · exfalso
      simp [disable_interrupt, hc] at h
  · intro e h
    by_cases hc : id.category = Category.Special
    · simp [set_priority, hc]
    · exfalso
      simp [set_priority, hc] at h
  · intro e h
    cases hcat : id.category
    case SGI => simp [set_trigger_mode, hcat]
    case Special => simp [set_trigger_mode, hcat]
    all_goals exfalso
    all_goals simp [set_trigger_mode, hcat] at h
  · intro e h
    by_cases hc : id.category = Category.SPI
    · exfalso
      simp [set_target_cpus, hc] at h
    · simp [set_target_cpus, hc]
  · intro e h
    by_cases hcore : v3.numCores ≤ core
    · simp [redist_enable_interrupt, hcore]
    · rcases henb : enable_interrupt (v3.redist core) id with ⟨r, g⟩
      cases r with
      | error er =>
        simp [redist_enable_interrupt, hcore, henb]
      | ok u =>
        exfalso
        simp [redist_enable_interrupt, hcore, henb] at h

/-- Witness for C4: three concrete error paths leave the concrete state
unchanged: enabling the special id 1023, setting targets of a PPI, and
addressing redistributor core 1 of a one-core v3 controller. -/
theorem error_paths_no_mutation_witness :
    (enable_interrupt GicState.init spuriousId).2 = GicState.init ∧
    (set_target_cpus GicState.init ppi16 1).2 = GicState.init ∧
    (redist_enable_interrupt GicV3State.init 1 spi40).2 = GicV3State.init :=
  ⟨(error_paths_no_mutation GicState.init GicV3State.init spuriousId 1 0 1
      TriggerMode.Edge).1 GicError.UnsupportedOperationForCategory rfl,
   (error_paths_no_mutation GicState.init GicV3State.init ppi16 1 0 1
      TriggerMode.Edge).2.2.2.2.1 GicError.UnsupportedOperationForCategory rfl,
   (error_paths_no_mutation GicState.init GicV3State.init spi40 1 0 1
      TriggerMode.Edge).2.2.2.2.2 GicError.CoreIndexOutOfRange rfl⟩

/-- Claim C5: every special-range id (1020-1023) is rejected, with the
state unchanged, by each configuration operation; hardware cannot assert a
special id, so — whenever no special id is pending, as in every reachable
state — an acknowledge returning a special-category id is exactly the
sentinel 1023 on an empty pending set; and every `IntId` that exists lies
in one of the valid construction ranges. -/
theorem special_range_invariant (s : GicState) (id : IntId) (p mask : Nat)
    (m : TriggerMode) (hsp : id.category = Category.Special) :
    enable_interrupt s id =
      (Except.error GicError.UnsupportedOperationForCategory, s) ∧
    disable_interrupt s id =
      (Except.error GicError.UnsupportedOperationForCategory, s) ∧
    set_priority s id p =
      (Except.error GicError.UnsupportedOperationForCategory, s) ∧
    set_trigger_mode s id m =
      (Except.error GicError.UnsupportedOperationForCategory, s) ∧
    set_target_cpus s id mask =
      (Except.error GicError.UnsupportedOperationForCategory, s) ∧
    assert_interrupt s id = s ∧
    ((∀ i ∈ s.pending, ¬ i.category = Category.Special) →
      (get_and_acknowledge_interrupt s).1.category = Category.Special →
      (get_and_acknowledge_interrupt s).1 = spuriousId ∧ s.pending = []) ∧
    (∀ a : IntId, isValidRaw a.raw = true) := by
  have hnspi : ¬ id.category = Category.SPI := by
    rw [hsp]
    intro h
    cases h
  refine ⟨?_, ?_, ?_, ?_, ?_, ?_, ?_, ?_⟩
  · simp [enable_interrupt, hsp]
  · simp [disable_interrupt, hsp]
  · simp [set_priority, hsp]
  · simp [set_trigger_mode, hsp]
  · simp [set_target_cpus, hnspi]
  · simp [assert_interrupt, hsp]
  · intro hnp hcat
    match hpd : s.pending with
    | [] =>
      simp [get_and_acknowledge_interrupt, hpd]
    | x :: xs =>
      exfalso
      have hx := hnp x (by rw [hpd]; exact List.mem_cons_self x xs)
      apply hx
      have : (get_and_acknowledge_interrupt s).1 = x := by
        simp [get_and_acknowledge_interrupt, hpd]
      rw [← this]
      exact hcat
  · intro a
    exact a.hvalid

/-- Witness for C5: the special sentinel id 1023 is rejected by
`enable_interrupt` on the concrete initial state, and acknowledge on the
idle initial state returns the sentinel with an empty pending set. -/
theorem special_range_invariant_witness :
    enable_interrupt GicState.init spuriousId =
      (Except.error GicError.UnsupportedOperationForCategory, GicState.init) ∧
    ((get_and_acknowledge_interrupt GicState.init).1 = spuriousId ∧
      GicState.init.pending = []) :=
  ⟨(special_range_invariant GicState.init spuriousId 0 0 TriggerMode.Edge
      (by decide)).1,
   (special_range_invariant GicState.init spuriousId 0 0 TriggerMode.Edge
      (by decide)).2.2.2.2.2.2.1 (by intro i hi; cases hi) (by decide)⟩

/-- Claim C6: `set_target_cpus` succeeds exactly for SPIs, writing the CPU
mask to the per-interrupt distributor target byte; for a PPI or SGI it
fails with `UnsupportedOperationForCategory` and the state is unchanged. -/
theorem target_cpus_semantics (s : GicState) (id : IntId) (mask : Nat) :
    (id.category = Category.SPI → mask < 256 →
      (set_target_cpus s id mask).1 = Except.ok () ∧
      (set_target_cpus s id mask).2.targets id.raw = mask) ∧
    (id.category = Category.PPI ∨ id.category = Category.SGI →
      set_target_cpus s id mask =
        (Except.error GicError.UnsupportedOperationForCategory, s)) := by
  constructor
  · intro hc hm
    simp [set_target_cpus, hc, Nat.mod_eq_of_lt hm]
  · intro hc
    have hns : ¬ id.category = Category.SPI := by
      rcases hc with hc | hc <;> rw [hc] <;> intro h <;> cases h
    simp [set_target_cpus, hns]

/-- Witness for C6: SPI 40 accepts target mask 1 and the byte reads back as
1; PPI 16 is rejected. -/
theorem target_cpus_semantics_witness :
    ((set_target_cpus GicState.init spi40 1).1 = Except.ok () ∧
      (set_target_cpus GicState.init spi40 1).2.targets spi40.raw = 1) ∧
    set_target_cpus GicState.init ppi16 1 =
      (Except.error GicError.UnsupportedOperationForCategory, GicState.init) :=
  ⟨(target_cpus_semantics GicState.init spi40 1).1 (by decide) (by decide),
   (target_cpus_semantics GicState.init ppi16 1).2 (Or.inl (by decide))⟩

/-- Modelled from the spec: the special id 1020 (start of the reserved
range). -/
def special1020 : IntId := ⟨1020, by decide⟩

/-- Modelled from the spec: a state whose enable word 31 already has bit 28
set — the bit position that raw id 1020 would occupy. -/
def presetState : GicState :=
  { GicState.init with enable := fun w => if w = 31 then 268435456 else 0 }

/-- The single-bit write-1-to-set followed by write-1-to-clear on the same
bit position clears exactly that bit of the word and preserves every other
bit. -/
theorem testBit_clear_set (w b j : Nat) :
    Nat.testBit (clearBit32 (setBit32 w b) b) j =
      if j = b then false else Nat.testBit w j := by
  have h1b : (1 <<< b) = 2 ^ b := by rw [Nat.shiftLeft_eq, Nat.one_mul]
  have hset : Nat.testBit (setBit32 w b) b = true := by
    simp [setBit32, h1b, Nat.testBit_lor, Nat.testBit_two_pow_self]
  by_cases hj : j = b
  · subst hj
    simp [clearBit32, hset, setBit32, h1b, Nat.testBit_xor, Nat.testBit_lor,
      Nat.testBit_two_pow_self]
  · have h2 : Nat.testBit (2 ^ b) j = false :=
      Nat.testBit_two_pow_of_ne (fun hh => hj hh.symm)
    rw [if_neg hj]
    simp [clearBit32, hset, setBit32, h1b, Nat.testBit_xor, Nat.testBit_lor, h2]

/-- Counterexample to C7 as stated: the quantifier "every valid IntId"
includes the special range, which `enable_interrupt` and
`disable_interrupt` reject without touching the register, so for the valid
special id 1020 and an initial word whose bit is already set, the
enable-then-disable sequence does NOT leave the bit clear. -/
theorem enable_disable_frame_cex :
    ¬ (Nat.testBit
        ((disable_interrupt (enable_interrupt presetState special1020).2
          special1020).2.enable (special1020.raw / 32))
        (special1020.raw % 32) = false) := by
  decide

/-- Claim C7 (amended: restricted to valid ids outside the special range,
which is the only range the enable operations reject): enabling then
disabling the same interrupt leaves its enable bit clear, leaves every
sibling bit of that register word exactly as it was, and leaves every
other enable word untouched. -/
theorem enable_disable_frame (s : GicState) (id : IntId)
    (hns : ¬ id.category = Category.Special) :
    Nat.testBit
      ((disable_interrupt (enable_interrupt s id).2 id).2.enable (id.raw / 32))
      (id.raw % 32) = false ∧
    (∀ j, j ≠ id.raw % 32 →
      Nat.testBit
        ((disable_interrupt (enable_interrupt s id).2 id).2.enable (id.raw / 32)) j
        = Nat.testBit (s.enable (id.raw / 32)) j) ∧
    (∀ w, w ≠ id.raw / 32 →
      (disable_interrupt (enable_interrupt s id).2 id).2.enable w = s.enable w) := by
  have hW : (disable_interrupt (enable_interrupt s id).2 id).2.enable (id.raw / 32)
      = clearBit32 (setBit32 (s.enable (id.raw / 32)) (id.raw % 32)) (id.raw % 32) := by
    simp [enable_interrupt, disable_interrupt, hns]
  refine ⟨?_, ?_, ?_⟩
  · rw [hW, testBit_clear_set]
    simp
  · intro j hj
    rw [hW, testBit_clear_set, if_neg hj]
  · intro w hw
    simp [enable_interrupt, disable_interrupt, hns, hw]

/-- Witness for the amended C7: the concrete round trip on SPI 40 leaves
its bit (word 1, bit 8) clear. -/
theorem enable_disable_frame_witness :
    Nat.testBit
      ((disable_interrupt (enable_interrupt GicState.init spi40).2 spi40).2.enable
        (spi40.raw / 32)) (spi40.raw % 32) = false :=
  (enable_disable_frame GicState.init spi40 (by decide)).1

/-- Counterexample to C8 as stated: "every valid IntId" includes the
special range, which `set_priority` rejects without writing, so writing
priority 5 to the valid special id 1023 and reading back does not return
5. -/
theorem set_priority_roundtrip_cex :
    ¬ (read_priority (set_priority GicState.init spuriousId 5).2 spuriousId = 5) := by
  decide

/-- Claim C8 (amended: restricted to valid ids outside the special range,
which is the only range `set_priority` rejects): writing any priority p in
0-255 and reading the per-interrupt priority register back through the
register access layer returns exactly p, and the write reports success. -/
theorem set_priority_roundtrip (s : GicState) (id : IntId) (p : Nat)
    (hns : ¬ id.category = Category.Special) (hp : p < 256) :
    (set_priority s id p).1 = Except.ok () ∧
    read_priority (set_priority s id p).2 id = p := by
  simp [set_priority, read_priority, hns, Nat.mod_eq_of_lt hp]

/-- Witness for the amended C8: priority 32 round-trips on SPI 40. -/
theorem set_priority_roundtrip_witness :
    (set_priority GicState.init spi40 32).1 = Except.ok () ∧
    read_priority (set_priority GicState.init spi40 32).2 spi40 = 32 :=
  set_priority_roundtrip GicState.init spi40 32 (by decide) (by decide)

/-- Claim C9: equality and ordering on `IntId` coincide with equality and
ordering of the raw numeric values. -/
theorem intid_eq_ord_by_raw (a b : IntId) :
    (a = b ↔ a.raw = b.raw) ∧ (a < b ↔ a.raw < b.raw) := by
  constructor
  · constructor
    · intro h
      rw [h]
    · exact IntId.ext_raw
  · exact Iff.rfl

/-- The `GicV2` driver handle.  The Clone implementation is declared in the
repository's trait-implementation index; the fields (the distributor and
CPU-interface base addresses the instance was constructed from) are
modelled from the spec. -/
structure GicV2 where
  gicd_base : Nat
  gicc_base : Nat

/-- The `GicV3` driver handle.  The Clone implementation is declared in the
repository's trait-implementation index; the fields (the distributor base
address and the per-core redistributor base addresses) are modelled from
the spec. -/
structure GicV3 where
  gicd_base : Nat
  gicr_bases : List Nat

/-- Clone for `IntId`, declared in the repository's trait-implementation
index: a derived clone of plain data, i.e. the identity copy. -/
def IntId.clone (id : IntId) : IntId := id

/-- Clone for `TriggerMode`, declared in the repository's
trait-implementation index: a derived clone of a fieldless enumeration. -/
def TriggerMode.clone (m : TriggerMode) : TriggerMode := m

/-- Clone for `GicV2`, declared in the repository's trait-implementation
index: a derived clone copying the register-region base addresses. -/
def GicV2.clone (g : GicV2) : GicV2 := g

/-- Clone for `GicV3`, declared in the repository's trait-implementation
index: a derived clone copying the register-region base addresses. -/
def GicV3.clone (g : GicV3) : GicV3 := g

/-- Claim C10: all four public types implement Clone and cloning yields a
value equal to the original; in particular a cloned `GicV2` or `GicV3`
refers to exactly the same distributor/CPU-interface/redistributor base
regions as the original, so exclusive ownership of the register regions is
not enforced by the type. -/
theorem clone_identity (a : IntId) (m : TriggerMode) (g2 : GicV2) (g3 : GicV3) :
    IntId.clone a = a ∧ TriggerMode.clone m = m ∧
    GicV2.clone g2 = g2 ∧ GicV3.clone g3 = g3 ∧
    (GicV2.clone g2).gicd_base = g2.gicd_base ∧
    (GicV2.clone g2).gicc_base = g2.gicc_base ∧
    (GicV3.clone g3).gicd_base = g3.gicd_base ∧
    (GicV3.clone g3).gicr_bases = g3.gicr_bases :=
  ⟨rfl, rfl, rfl, rfl, rfl, rfl, rfl, rfl⟩
